/-
  Verification of the pgwasdbi import/validation pipeline.

  Shallow embedding of the entity-resolution ("find-or-create") engine of
  src/pgwasdbi/util/insert.py, the lookup functions of src/pgwasdbi/util/find.py,
  the validators of src/pgwasdbi/util/validate.py, the CLI step handling of
  src/pgwasdbi/cli.py and the pipeline orchestration of src/pgwasdbi/pgwasdbi.py
  and src/pgwasdbi/core/experiment.py.

  The database is modelled as an explicit table value threaded through each
  operation; one SQL round trip maps to one pure function call.  Counters on
  the table record how many SELECT statements, INSERT statements and commits a
  call performed, so that statements about "no second INSERT", "no re-query"
  and "no commit in that branch" are expressible.  Python exceptions are
  modelled with Except; functions of the source that cannot raise are total.
-/
import Mathlib

set_option maxRecDepth 4000
set_option linter.unusedVariables false

/-! ## SQL primitives

  A fetched identity column (`cur.fetchone()` on a one-column SELECT):
  the outer `Option` is row presence, the inner `Option` is SQL NULL. -/

abbrev FetchedId := Option (Option Int)

/-- Python truthiness of a fetched column value: NULL and 0 are falsy. -/
def sqlTruthy : Option Int → Bool
  | none => false
  | some v => v != 0

/-- Embedding of `exists_in_database` (insert.py lines 27-46): execute the
    identity query; if a row came back and its first column is truthy, return
    it, otherwise return `None`. -/
def exists_in_database (query_result : FetchedId) : Option Int :=
  match query_result with
  | some known_id => if sqlTruthy known_id then known_id else none
  | none => none

/-! ## Generic table model

  Each entity table holds `(identity, natural-key)` rows plus an
  auto-increment counter, and bookkeeping counters for the statements a call
  executed.  `nextId` models the Postgres identity sequence. -/

structure Table (κ : Type) where
  rows : List (Int × κ)
  nextId : Int
  inserts : Nat
  selects : Nat
  commits : Nat
deriving DecidableEq

/-- Identity SELECT by natural key (`SELECT <entity>_id FROM <entity> WHERE
    <natural key columns> = %s ...`): first column of the first matching row. -/
def tableSelect {κ : Type} [DecidableEq κ] (t : Table κ) (k : κ) : FetchedId :=
  (t.rows.find? (fun r => decide (r.2 = k))).map (fun r => some r.1)

/-- Embedding of the shared check-then-insert protocol of the per-entity
    insert functions of insert.py (`insert_species` lines 48-90,
    `insert_population` lines 93-133, and structurally identical siblings),
    parameterised by the identity SELECT.  Step 1: run the existence check;
    on a truthy id, commit and return it.  Step 2: otherwise execute
    `INSERT ... ON CONFLICT DO NOTHING RETURNING <id>`; a conflict with the
    table's natural-key constraint suppresses the insert and returns no row,
    in which case the function returns `none` without committing.  The
    `selects`/`inserts` counters count executed statements. -/
def find_or_create_with {κ : Type} [DecidableEq κ]
    (sel : Table κ → κ → FetchedId) (t0 : Table κ) (k : κ) :
    Option Int × Table κ :=
  let t := { t0 with selects := t0.selects + 1 }
  match exists_in_database (sel t0 k) with
  | some known_id => (some known_id, { t with commits := t.commits + 1 })
  | none =>
    let t1 := { t with inserts := t.inserts + 1 }
    if t.rows.any (fun r => decide (r.2 = k)) then
      (none, t1)
    else
      (some t.nextId,
       { t1 with
         rows := t.rows ++ [(t.nextId, k)]
         nextId := t.nextId + 1
         commits := t.commits + 1 })

/-- Check-then-insert with the plain natural-key equality SELECT. -/
def find_or_create {κ : Type} [DecidableEq κ] (t0 : Table κ) (k : κ) :
    Option Int × Table κ :=
  find_or_create_with tableSelect t0 k

/-! ## Species and population (insert.py lines 48-133) -/

/-- Natural key of the species table: shortname, binomial, subspecies,
    variety (fields named as in the positional species model object). -/
structure SpeciesKey where
  n : String
  b : String
  s : String
  v : String
deriving DecidableEq

/-- Embedding of `insert_species` (insert.py lines 48-90): existence check on
    (shortname, binomial, subspecies, variety), then conflict-ignoring insert
    returning `species_id`. -/
def insert_species (t : Table SpeciesKey) (sp : SpeciesKey) :
    Option Int × Table SpeciesKey :=
  find_or_create t sp

/-- Natural key of the population table: (population_name, population_species). -/
structure PopulationKey where
  n : String
  s : Int
deriving DecidableEq

/-- Embedding of `insert_population` (insert.py lines 93-133): existence check
    on (population_name, population_species), then conflict-ignoring insert
    returning `population_id`. -/
def insert_population (t : Table PopulationKey) (p : PopulationKey) :
    Option Int × Table PopulationKey :=
  find_or_create t p

/-! ## Genotype (insert.py lines 368-416) -/

deriving instance DecidableEq for Except

/-- A raised Python exception. -/
inductive PyError
  | typeError
deriving DecidableEq

/-- Natural key of the genotype table as used by the existence check:
    (genotype_line, genotype_chromosome, genotype_genotype_version). -/
structure GenotypeKey where
  l : Int
  c : Int
  v : Int
deriving DecidableEq

/-- The genotype table: each row carries its identity, the natural key, and
    the allele-call matrix row stored by the INSERT's `genotype` column
    (which plays no role in identity). -/
structure GenotypeTable where
  rows : List (Int × GenotypeKey × List Int)
  nextId : Int
  inserts : Nat
  selects : Nat
  commits : Nat
deriving DecidableEq

/-- Identity SELECT of `insert_genotype` (insert.py lines 384-388): first
    `genotype_id` whose (line, chromosome, genotype_version) matches. -/
def genotypeSelect (t : GenotypeTable) (k : GenotypeKey) : FetchedId :=
  (t.rows.find? (fun r => decide (r.2.1 = k))).map (fun r => some r.1)

/-- Embedding of `insert_genotype` (insert.py lines 368-416): the same
    existence check then `INSERT ... ON CONFLICT DO NOTHING RETURNING
    genotype_id` as the other find-or-create wrappers, but the returned row
    is subscripted unguarded — `genotype_id = cur.fetchone()[0]` (line 413).
    When the conflict suppresses the insert, `fetchone()` yields `None` and
    the subscript raises `TypeError`, so this wrapper raises in the
    suppressed-conflict branch instead of returning `None`. -/
def insert_genotype (t0 : GenotypeTable) (k : GenotypeKey) (g : List Int) :
    Except PyError (Int × GenotypeTable) :=
  let t := { t0 with selects := t0.selects + 1 }
  match exists_in_database (genotypeSelect t0 k) with
  | some known_id => .ok (known_id, { t with commits := t.commits + 1 })
  | none =>
    let t1 := { t with inserts := t.inserts + 1 }
    if t.rows.any (fun r => decide (r.2.1 = k)) then
      .error .typeError
    else
      .ok (t.nextId,
        { t1 with
          rows := t.rows ++ [(t.nextId, k, g)]
          nextId := t.nextId + 1
          commits := t.commits + 1 })

/-! ## Phenotype (insert.py lines 517-563) -/

/-- Stored columns of a phenotype row: (phenotype_line, phenotype_trait,
    phenotype_value); the value is kept as the raw string that was inserted. -/
structure PhenotypeKey where
  l : Int
  t : Int
  v : String
deriving DecidableEq

/-- Model of SQL LOWER, written over the character list so that it evaluates
    by kernel reduction. -/
def sqlLower (s : String) : String := String.mk (s.data.map Char.toLower)

/-- Identity SELECT of `insert_phenotype`: `WHERE phenotype_line = %s AND
    phenotype_trait = %s AND LOWER(phenotype_value) = %s` — the stored value
    is lower-cased, the incoming parameter is compared as given. -/
def phenotypeSelect (t : Table PhenotypeKey) (k : PhenotypeKey) : FetchedId :=
  (t.rows.find? (fun r =>
    decide (r.2.l = k.l) && decide (r.2.t = k.t) &&
    decide (sqlLower r.2.v = k.v))).map (fun r => some r.1)

/-- Embedding of `insert_phenotype` (insert.py lines 517-563): the existence
    check lower-cases the stored `phenotype_value` (comment in the source:
    needed to match SQL "NaN" against Python "nan"), then the usual
    conflict-ignoring insert returning `phenotype_id`. -/
def insert_phenotype (t : Table PhenotypeKey) (k : PhenotypeKey) :
    Option Int × Table PhenotypeKey :=
  find_or_create_with phenotypeSelect t k

/-! ## GWAS runs (find.py lines 420-456, insert.py lines 1003-1075) -/

/-- Composite identity of a gwas_run row, field letters as in the positional
    gwas_run model object: trait, nsnps, nlines, algorithm, genotype version,
    missing-SNP cutoff, missing-line cutoff, MAF cutoff, imputation method,
    kinship, population structure.  `nsnps`/`nlines` are nullable columns;
    the numeric cutoffs are modelled as integers since only equality on them
    is ever used. -/
structure GwasRunKey where
  t : Int
  s : Option Int
  l : Option Int
  a : Int
  v : Int
  m : Int
  i : Int
  n : Int
  p : Int
  k : Int
  o : Int
deriving DecidableEq

/-- WHERE clause of `find_gwas_run` (find.py lines 421-433): strict equality
    on every field except `nsnps` and `nlines`, which use
    `(nsnps = %s or nsnps is null)` — a stored NULL matches any queried
    value, and a stored value only matches an equal non-NULL parameter
    (SQL `col = NULL` is never true). -/
def gwasRunMatches (row q : GwasRunKey) : Bool :=
  decide (row.a = q.a) && decide (row.m = q.m) && decide (row.i = q.i) &&
  decide (row.p = q.p) && decide (row.t = q.t) &&
  (match row.s with
   | none => true
   | some x => decide (q.s = some x)) &&
  (match row.l with
   | none => true
   | some x => decide (q.l = some x)) &&
  decide (row.v = q.v) && decide (row.k = q.k) && decide (row.o = q.o) &&
  decide (row.n = q.n)

/-- Embedding of `find_gwas_run` (find.py lines 420-456): return the id of
    the first row matching the null-tolerant WHERE clause, `None` when no
    row matches (no truthiness filter on the returned id). -/
def find_gwas_run (t : Table GwasRunKey) (q : GwasRunKey) : Option Int :=
  (t.rows.find? (fun r => gwasRunMatches r.2 q)).map (fun r => r.1)

/-- Embedding of `insert_gwas_run` (insert.py lines 1003-1075): its existence
    check uses strict equality on all eleven columns (no null-tolerant
    clause), then the usual conflict-ignoring insert. -/
def insert_gwas_run (t : Table GwasRunKey) (q : GwasRunKey) :
    Option Int × Table GwasRunKey :=
  find_or_create t q

/-! ## Async bulk variant loader
    (validate.py lines 343-368, insert.py lines 343-365 and 1304-1325) -/

/-- A variant table row as touched by the async path: (variant_species,
    variant_chromosome, variant_pos).  The auto-generated `variant_id` plays
    no role in the bulk COPY, which names only these three columns. -/
abbrev VariantRec := Int × Int × Int

/-- Embedding of `validate_variant_sync` (validate.py lines 343-368): for each
    input tuple run the prepared point lookup `SELECT variant_id FROM variant
    WHERE variant_species = $1 AND variant_chromosome = $2 AND variant_pos =
    $3` against the table as of the start of the pre-filter, and keep exactly
    the tuples for which the lookup returns no row. -/
def validate_variant_sync (table : List VariantRec) (data : List VariantRec) :
    List VariantRec :=
  data.filter (fun d => !(table.any (fun r => decide (r = d))))

/-- Embedding of `variant_sync_run` (insert.py lines 1304-1325): bulk-append
    every record to the variant table via `copy_records_to_table` (no per-row
    conflict detection) and report the number of copied records. -/
def variant_sync_run (table : List VariantRec) (data : List VariantRec) :
    Nat × List VariantRec :=
  (data.length, table ++ data)

/-- Embedding of `insert_variants_from_file_async` (insert.py lines 343-365):
    zip the parsed positions with the constant species and chromosome ids,
    pre-filter them with `validate_variant_sync`, then bulk-append the
    survivors with `variant_sync_run`. -/
def insert_variants_from_file_async (table : List VariantRec)
    (speciesID chromosomeID : Int) (positions : List Int) :
    Nat × List VariantRec :=
  let df := positions.map (fun p => (speciesID, chromosomeID, p))
  let validated := validate_variant_sync table df
  variant_sync_run table validated

/-! ## Helper lemmas about the find-or-create protocol -/

/-- Running the check-then-insert protocol on a key absent from the table
    appends one fresh row and returns the fresh id. -/
lemma find_or_create_fresh {κ : Type} [DecidableEq κ] (t : Table κ) (k : κ)
    (hk : ∀ r ∈ t.rows, r.2 ≠ k) :
    find_or_create t k =
      (some t.nextId,
       { rows := t.rows ++ [(t.nextId, k)], nextId := t.nextId + 1,
         inserts := t.inserts + 1, selects := t.selects + 1,
         commits := t.commits + 1 }) := by
  have hfind : t.rows.find? (fun r => decide (r.2 = k)) = none :=
    List.find?_eq_none.mpr (by intro x hx; simpa using hk x hx)
  have hany : t.rows.any (fun r => decide (r.2 = k)) = false := by
    simp only [List.any_eq_false, decide_eq_true_eq]
    exact hk
  cases t with
  | mk rows nextId inserts selects commits =>
    simp [find_or_create, find_or_create_with, tableSelect, exists_in_database,
      hfind, hany]

/-- Running the check-then-insert protocol when the existence check finds a
    truthy id returns that id and leaves the rows untouched, with one more
    SELECT and commit and no INSERT. -/
lemma find_or_create_found {κ : Type} [DecidableEq κ] (t : Table κ) (k : κ)
    (i : Int) (r : Int × κ)
    (hfind : t.rows.find? (fun x => decide (x.2 = k)) = some r)
    (hi : r.1 = i) (hne : i ≠ 0) :
    find_or_create t k =
      (some i,
       { rows := t.rows, nextId := t.nextId, inserts := t.inserts,
         selects := t.selects + 1, commits := t.commits + 1 }) := by
  cases t with
  | mk rows nextId inserts selects commits =>
    simp only [find_or_create, find_or_create_with, tableSelect,
      exists_in_database] at *
    rw [hfind]
    simp [sqlTruthy, hi, hne]

/-! ## Claim C1 -/

/-- C1: calling a find-or-create insert function twice with identical
natural-key parameters (shown for `insert_species` and `insert_population`,
every other wrapper instantiates the same `find_or_create` protocol) returns
the same identity both times; the underlying table gains exactly one row,
created by the first call; the second call's existence check finds that row
and returns its id without executing a second INSERT statement. -/
theorem insert_twice_same_id_one_row :
    (∀ (t : Table SpeciesKey) (k : SpeciesKey),
      (∀ r ∈ t.rows, r.2 ≠ k) → t.nextId ≠ 0 →
      (insert_species t k).1 = some t.nextId ∧
      (insert_species (insert_species t k).2 k).1 = some t.nextId ∧
      (insert_species (insert_species t k).2 k).2.rows
        = t.rows ++ [(t.nextId, k)] ∧
      (insert_species (insert_species t k).2 k).2.inserts = t.inserts + 1) ∧
    (∀ (t : Table PopulationKey) (k : PopulationKey),
      (∀ r ∈ t.rows, r.2 ≠ k) → t.nextId ≠ 0 →
      (insert_population t k).1 = some t.nextId ∧
      (insert_population (insert_population t k).2 k).1 = some t.nextId ∧
      (insert_population (insert_population t k).2 k).2.rows
        = t.rows ++ [(t.nextId, k)] ∧
      (insert_population (insert_population t k).2 k).2.inserts
        = t.inserts + 1) := by
  constructor <;>
  · intro t k hk hid
    have h1 := find_or_create_fresh t k hk
    have hfind : t.rows.find? (fun r => decide (r.2 = k)) = none :=
      List.find?_eq_none.mpr (by intro x hx; simpa using hk x hx)
    have hfind2 :
        (t.rows ++ [(t.nextId, k)]).find? (fun r => decide (r.2 = k))
          = some (t.nextId, k) := by
      rw [List.find?_append, hfind]
      simp
    have h2 := find_or_create_found
      ({ rows := t.rows ++ [(t.nextId, k)], nextId := t.nextId + 1,
         inserts := t.inserts + 1, selects := t.selects + 1,
         commits := t.commits + 1 } : Table _) k t.nextId (t.nextId, k)
      hfind2 rfl hid
    simp only [insert_species, insert_population, h1, h2]
    exact ⟨trivial, trivial, trivial, trivial⟩

/-- Witness for C1: inserting the same species key twice into an empty table. -/
theorem insert_twice_same_id_one_row_witness :
    (insert_species ⟨[], 1, 0, 0, 0⟩ ⟨"maize", "Zea mays", "mays", "B73"⟩).1
      = some 1 ∧
    (insert_species
      (insert_species ⟨[], 1, 0, 0, 0⟩ ⟨"maize", "Zea mays", "mays", "B73"⟩).2
      ⟨"maize", "Zea mays", "mays", "B73"⟩).1 = some 1 ∧
    (insert_species
      (insert_species ⟨[], 1, 0, 0, 0⟩ ⟨"maize", "Zea mays", "mays", "B73"⟩).2
      ⟨"maize", "Zea mays", "mays", "B73"⟩).2.rows
      = [] ++ [(1, ⟨"maize", "Zea mays", "mays", "B73"⟩)] ∧
    (insert_species
      (insert_species ⟨[], 1, 0, 0, 0⟩ ⟨"maize", "Zea mays", "mays", "B73"⟩).2
      ⟨"maize", "Zea mays", "mays", "B73"⟩).2.inserts = 0 + 1 :=
  insert_twice_same_id_one_row.1 ⟨[], 1, 0, 0, 0⟩
    ⟨"maize", "Zea mays", "mays", "B73"⟩ (by simp) (by decide)

/-! ## Claim C3 -/

/-- C3 counterexample: the claim that every find-or-create insert function
returns a null identity without raising in the suppressed-conflict branch is
false: `insert_genotype` is a find-or-create insert function (existence
check, then conflict-ignoring insert), yet on this concrete table — which
holds the key under the falsy identity 0, so the existence check returns no
row and the insert conflicts — it raises a TypeError from the unguarded
`cur.fetchone()[0]` instead of returning None. -/
theorem insert_genotype_suppressed_conflict_raises :
    exists_in_database
      (genotypeSelect
        (⟨[(0, ⟨1, 2, 3⟩, [0, 1])], 1, 0, 0, 0⟩ : GenotypeTable)
        ⟨1, 2, 3⟩) = none ∧
    (⟨[(0, ⟨1, 2, 3⟩, [0, 1])], 1, 0, 0, 0⟩ : GenotypeTable).rows.any
      (fun r => decide (r.2.1 = (⟨1, 2, 3⟩ : GenotypeKey))) = true ∧
    insert_genotype ⟨[(0, ⟨1, 2, 3⟩, [0, 1])], 1, 0, 0, 0⟩ ⟨1, 2, 3⟩ [0, 1] =
      .error .typeError := by
  refine ⟨?_, ?_, ?_⟩ <;> decide

/-- C3 (amended): when the existence check returns no row and the subsequent
`INSERT ... ON CONFLICT DO NOTHING` also returns no row (a suppressed
conflict), the find-or-create insert functions shaped like `insert_species`
and `insert_population` return `none` rather than re-querying (exactly one
SELECT was executed) and neither raise nor commit in that branch; the one
deviating wrapper is `insert_genotype`, whose unguarded
`cur.fetchone()[0]` raises a TypeError in that same branch instead of
returning `None`. -/
theorem suppressed_conflict_branch_behavior :
    (∀ (t : Table SpeciesKey) (k : SpeciesKey),
      exists_in_database (tableSelect t k) = none →
      t.rows.any (fun r => decide (r.2 = k)) = true →
      insert_species t k =
        (none, { rows := t.rows, nextId := t.nextId,
                 inserts := t.inserts + 1, selects := t.selects + 1,
                 commits := t.commits })) ∧
    (∀ (t : Table PopulationKey) (k : PopulationKey),
      exists_in_database (tableSelect t k) = none →
      t.rows.any (fun r => decide (r.2 = k)) = true →
      insert_population t k =
        (none, { rows := t.rows, nextId := t.nextId,
                 inserts := t.inserts + 1, selects := t.selects + 1,
                 commits := t.commits })) ∧
    (∀ (t : GenotypeTable) (k : GenotypeKey) (g : List Int),
      exists_in_database (genotypeSelect t k) = none →
      t.rows.any (fun r => decide (r.2.1 = k)) = true →
      insert_genotype t k g = .error .typeError) := by
  refine ⟨?_, ?_, ?_⟩
  · intro t k hex hconf
    cases t with
    | mk rows nextId inserts selects commits =>
      simp only [insert_species, insert_population, find_or_create,
        find_or_create_with]
      rw [hex]
      simp [hconf]
  · intro t k hex hconf
    cases t with
    | mk rows nextId inserts selects commits =>
      simp only [insert_species, insert_population, find_or_create,
        find_or_create_with]
      rw [hex]
      simp [hconf]
  · intro t k g hex hconf
    cases t with
    | mk rows nextId inserts selects commits =>
      simp only [insert_genotype]
      rw [hex]
      simp [hconf]

/-- Witness for C3 (amended): tables that already hold the key with the
falsy identity 0, so the existence check misses it and the insert conflicts:
`insert_species` returns `none` without committing, while `insert_genotype`
raises. -/
theorem suppressed_conflict_branch_behavior_witness :
    exists_in_database
      (tableSelect (⟨[(0, ⟨"m", "z", "", ""⟩)], 1, 0, 0, 0⟩ : Table SpeciesKey)
        ⟨"m", "z", "", ""⟩) = none ∧
    ((⟨[(0, ⟨"m", "z", "", ""⟩)], 1, 0, 0, 0⟩ : Table SpeciesKey)).rows.any
      (fun r => decide (r.2 = (⟨"m", "z", "", ""⟩ : SpeciesKey))) = true ∧
    insert_species ⟨[(0, ⟨"m", "z", "", ""⟩)], 1, 0, 0, 0⟩ ⟨"m", "z", "", ""⟩ =
      (none, { rows := [(0, ⟨"m", "z", "", ""⟩)], nextId := 1,
               inserts := 0 + 1, selects := 0 + 1, commits := 0 }) ∧
    insert_genotype ⟨[(0, ⟨4, 5, 6⟩, [2])], 1, 0, 0, 0⟩ ⟨4, 5, 6⟩ [2] =
      .error .typeError :=
  ⟨by decide, by decide,
   suppressed_conflict_branch_behavior.1
     ⟨[(0, ⟨"m", "z", "", ""⟩)], 1, 0, 0, 0⟩
     ⟨"m", "z", "", ""⟩ (by decide) (by decide),
   suppressed_conflict_branch_behavior.2.2
     ⟨[(0, ⟨4, 5, 6⟩, [2])], 1, 0, 0, 0⟩ ⟨4, 5, 6⟩ [2]
     (by decide) (by decide)⟩

/-! ## Claim C7 -/

/-- C7: phenotype identity matching tolerates the "NaN"/"nan" case split: for
any table holding a row (line, trait, "NaN") with only truthy identities,
inserting the same (line, trait) with incoming value "nan" is recognised by
the existence check (`LOWER(phenotype_value) = %s`), so an id is returned,
the rows are unchanged (no duplicate insert) and no INSERT is executed. -/
theorem phenotype_nan_match_no_duplicate (t : Table PhenotypeKey)
    (ln tr i : Int)
    (hmem : (i, ⟨ln, tr, "NaN"⟩) ∈ t.rows)
    (hids : ∀ r ∈ t.rows, r.1 ≠ 0) :
    (insert_phenotype t ⟨ln, tr, "nan"⟩).1.isSome = true ∧
    (insert_phenotype t ⟨ln, tr, "nan"⟩).2.rows = t.rows ∧
    (insert_phenotype t ⟨ln, tr, "nan"⟩).2.inserts = t.inserts := by
  have hpred :
      (fun r : Int × PhenotypeKey =>
        decide (r.2.l = (⟨ln, tr, "nan"⟩ : PhenotypeKey).l) &&
        decide (r.2.t = (⟨ln, tr, "nan"⟩ : PhenotypeKey).t) &&
        decide (sqlLower r.2.v = (⟨ln, tr, "nan"⟩ : PhenotypeKey).v))
        (i, ⟨ln, tr, "NaN"⟩) = true := by
    simp only [Bool.and_eq_true, decide_eq_true_eq]
    exact ⟨⟨by trivial, by trivial⟩, by decide⟩
  have hsome : (t.rows.find? (fun r : Int × PhenotypeKey =>
      decide (r.2.l = (⟨ln, tr, "nan"⟩ : PhenotypeKey).l) &&
      decide (r.2.t = (⟨ln, tr, "nan"⟩ : PhenotypeKey).t) &&
      decide (sqlLower r.2.v = (⟨ln, tr, "nan"⟩ : PhenotypeKey).v))).isSome
      = true :=
    List.find?_isSome.mpr ⟨(i, ⟨ln, tr, "NaN"⟩), hmem, hpred⟩
  obtain ⟨r0, hr0⟩ := Option.isSome_iff_exists.mp hsome
  have hr0mem := List.mem_of_find?_eq_some hr0
  have hr0id : r0.1 ≠ 0 := hids r0 hr0mem
  simp only [insert_phenotype, find_or_create_with, phenotypeSelect,
    exists_in_database, hr0, Option.map_some]
  simp [sqlTruthy, hr0id]

/-- Witness for C7: a one-row table with stored value "NaN" and an incoming
"nan" phenotype. -/
theorem phenotype_nan_match_no_duplicate_witness :
    (insert_phenotype ⟨[(3, ⟨1, 2, "NaN"⟩)], 4, 0, 0, 0⟩
      ⟨1, 2, "nan"⟩).1.isSome = true ∧
    (insert_phenotype ⟨[(3, ⟨1, 2, "NaN"⟩)], 4, 0, 0, 0⟩
      ⟨1, 2, "nan"⟩).2.rows = [(3, ⟨1, 2, "NaN"⟩)] ∧
    (insert_phenotype ⟨[(3, ⟨1, 2, "NaN"⟩)], 4, 0, 0, 0⟩
      ⟨1, 2, "nan"⟩).2.inserts = 0 :=
  phenotype_nan_match_no_duplicate ⟨[(3, ⟨1, 2, "NaN"⟩)], 4, 0, 0, 0⟩ 1 2 3
    (by simp) (by decide)

/-! ## Claim C8 -/

/-- C8 counterexample: the claim "two GWAS result rows whose runs differ only
in nLines always resolve to two distinct GwasRun identities" is false:
`find_gwas_run` matches with `(nlines = %s or nlines is null)`, so a stored
run whose `nlines` is NULL matches any queried value, and the queries for
nLines = 10 and nLines = 20 (all other identity fields equal) both resolve to
the same id 7. -/
theorem find_gwas_run_null_nlines_same_id :
    find_gwas_run ⟨[(7, ⟨5, some 31, none, 1, 2, 3, 4, 6, 8, 9, 10⟩)],
        8, 0, 0, 0⟩
      ⟨5, some 31, some 10, 1, 2, 3, 4, 6, 8, 9, 10⟩ = some 7 ∧
    find_gwas_run ⟨[(7, ⟨5, some 31, none, 1, 2, 3, 4, 6, 8, 9, 10⟩)],
        8, 0, 0, 0⟩
      ⟨5, some 31, some 20, 1, 2, 3, 4, 6, 8, 9, 10⟩ = some 7 ∧
    (⟨5, some 31, some 10, 1, 2, 3, 4, 6, 8, 9, 10⟩ : GwasRunKey).l ≠
      (⟨5, some 31, some 20, 1, 2, 3, 4, 6, 8, 9, 10⟩ : GwasRunKey).l := by
  refine ⟨?_, ?_, ?_⟩ <;> decide

/-- C8 (amended): two GWAS result rows whose runs differ in nLines resolve to
two distinct GwasRun identities provided every stored run row has a non-NULL
`nlines` and identities are unique; the restriction is forced because
`find_gwas_run` treats a stored NULL `nlines` as a wildcard that matches any
queried value. -/
theorem find_gwas_run_distinct_on_nlines (t : Table GwasRunKey)
    (q1 q2 : GwasRunKey) (i j : Int)
    (hnn : ∀ r ∈ t.rows, r.2.l ≠ none)
    (hids : (t.rows.map Prod.fst).Nodup)
    (hdiff : q1.l ≠ q2.l)
    (h1 : find_gwas_run t q1 = some i)
    (h2 : find_gwas_run t q2 = some j) : i ≠ j := by
  simp only [find_gwas_run, Option.map_eq_some'] at h1 h2
  obtain ⟨r1, hf1, hi⟩ := h1
  obtain ⟨r2, hf2, hj⟩ := h2
  have hm1 := List.find?_some hf1
  have hm2 := List.find?_some hf2
  have hmem1 := List.mem_of_find?_eq_some hf1
  have hmem2 := List.mem_of_find?_eq_some hf2
  obtain ⟨x1, hx1⟩ := Option.ne_none_iff_exists'.mp (hnn r1 hmem1)
  obtain ⟨x2, hx2⟩ := Option.ne_none_iff_exists'.mp (hnn r2 hmem2)
  have hq1 : q1.l = r1.2.l := by
    simp only [gwasRunMatches, hx1, Bool.and_eq_true, decide_eq_true_eq] at hm1
    rw [hx1]
    exact hm1.1.1.1.1.2
  have hq2 : q2.l = r2.2.l := by
    simp only [gwasRunMatches, hx2, Bool.and_eq_true, decide_eq_true_eq] at hm2
    rw [hx2]
    exact hm2.1.1.1.1.2
  intro hij
  apply hdiff
  rw [hq1, hq2]
  have : r1 = r2 :=
    List.inj_on_of_nodup_map hids hmem1 hmem2 (by rw [hi, hj, hij])
  rw [this]

/-- Witness for C8 (amended): two stored runs with non-NULL nLines 10 and 20;
the two lookups resolve to the distinct ids 1 and 2. -/
theorem find_gwas_run_distinct_on_nlines_witness :
    find_gwas_run ⟨[(1, ⟨5, some 31, some 10, 1, 2, 3, 4, 6, 8, 9, 10⟩),
        (2, ⟨5, some 31, some 20, 1, 2, 3, 4, 6, 8, 9, 10⟩)], 3, 0, 0, 0⟩
      ⟨5, some 31, some 10, 1, 2, 3, 4, 6, 8, 9, 10⟩ = some 1 ∧
    find_gwas_run ⟨[(1, ⟨5, some 31, some 10, 1, 2, 3, 4, 6, 8, 9, 10⟩),
        (2, ⟨5, some 31, some 20, 1, 2, 3, 4, 6, 8, 9, 10⟩)], 3, 0, 0, 0⟩
      ⟨5, some 31, some 20, 1, 2, 3, 4, 6, 8, 9, 10⟩ = some 2 ∧
    (1 : Int) ≠ 2 :=
  ⟨by decide, by decide,
   find_gwas_run_distinct_on_nlines
     ⟨[(1, ⟨5, some 31, some 10, 1, 2, 3, 4, 6, 8, 9, 10⟩),
       (2, ⟨5, some 31, some 20, 1, 2, 3, 4, 6, 8, 9, 10⟩)], 3, 0, 0, 0⟩
     ⟨5, some 31, some 10, 1, 2, 3, 4, 6, 8, 9, 10⟩
     ⟨5, some 31, some 20, 1, 2, 3, 4, 6, 8, 9, 10⟩ 1 2
     (by decide) (by decide) (by decide) (by decide) (by decide)⟩

/-! ## Claim C10 -/

/-- C10: `exists_in_database` returns an identity exactly when the query
yields a row whose first column is truthy; no row, a NULL id, or an id equal
to 0 all yield `None`.  Consequently a stored species row whose identity is 0
is reported absent, and the caller `insert_species` proceeds to execute the
INSERT statement (which the conflict then suppresses). -/
theorem exists_in_database_truthy_only :
    (∀ qr : FetchedId,
      (exists_in_database qr = none ↔
        (qr = none ∨ qr = some none ∨ qr = some (some 0)))) ∧
    (∀ (qr : FetchedId) (v : Int),
      (exists_in_database qr = some v ↔ (qr = some (some v) ∧ v ≠ 0))) ∧
    ((insert_species ⟨[(0, ⟨"m", "z", "", ""⟩)], 5, 0, 0, 0⟩
        ⟨"m", "z", "", ""⟩).1 = none ∧
     (insert_species ⟨[(0, ⟨"m", "z", "", ""⟩)], 5, 0, 0, 0⟩
        ⟨"m", "z", "", ""⟩).2.inserts = 1) := by
  refine ⟨?_, ?_, by decide, by decide⟩
  · intro qr
    match qr with
    | none => simp [exists_in_database]
    | some none => simp [exists_in_database, sqlTruthy]
    | some (some v) =>
      by_cases hv : v = 0 <;> simp [exists_in_database, sqlTruthy, hv]
  · intro qr v
    match qr with
    | none => simp [exists_in_database]
    | some none => simp [exists_in_database, sqlTruthy]
    | some (some w) =>
      by_cases hw : w = 0
      · subst hw
        simp only [exists_in_database, sqlTruthy]
        constructor
        · intro h
          simp at h
        · rintro ⟨h, hv⟩
          injection h with h
          injection h with h
          exact absurd h.symm hv
      · simp only [exists_in_database, sqlTruthy]
        constructor
        · intro h
          rw [if_pos (by simp [hw])] at h
          injection h with h
          exact ⟨by rw [h], by rw [← h]; exact hw⟩
        · rintro ⟨h, hv⟩
          injection h with h
          injection h with h
          rw [if_pos (by simp [hw]), h]

/-! ## Claim C2 -/

/-- C2: for every input list of positions and every prior variant-table
state, the async bulk loader appends exactly the tuples with no existing
match at pre-filter time, leaves already-present tuples untouched (their
multiplicity in the table is unchanged, so no duplicate row is created and no
error is possible — the functions are total), and reports the number of
appended records; in particular, with an existing variant at
(species 1, chromosome 2, position 500) and input positions {400, 500, 600},
exactly {400, 600} are appended. -/
theorem variant_async_prefilter_exact :
    (∀ (table : List VariantRec) (sp ch : Int) (ps : List Int),
      (insert_variants_from_file_async table sp ch ps).2 =
        table ++ (ps.map (fun p => (sp, ch, p))).filter
          (fun d => !(table.any (fun r => decide (r = d)))) ∧
      (∀ d, d ∈ table →
        (insert_variants_from_file_async table sp ch ps).2.count d
          = table.count d) ∧
      (insert_variants_from_file_async table sp ch ps).1 =
        ((ps.map (fun p => (sp, ch, p))).filter
          (fun d => !(table.any (fun r => decide (r = d))))).length) ∧
    insert_variants_from_file_async [(1, 2, 500)] 1 2 [400, 500, 600] =
      (2, [(1, 2, 500), (1, 2, 400), (1, 2, 600)]) := by
  refine ⟨?_, by decide⟩
  intro table sp ch ps
  refine ⟨rfl, ?_, rfl⟩
  intro d hd
  have hnot : d ∉ (ps.map (fun p => (sp, ch, p))).filter
      (fun x => !(table.any (fun r => decide (r = x)))) := by
    intro hmemf
    have := List.of_mem_filter hmemf
    simp only [Bool.not_eq_true', List.any_eq_false, decide_eq_true_eq] at this
    exact this d hd rfl
  show (table ++ _).count d = table.count d
  rw [List.count_append]
  have hzero : (validate_variant_sync table
      (ps.map (fun p => (sp, ch, p)))).count d = 0 :=
    List.count_eq_zero_of_not_mem hnot
  rw [hzero]
  omega

/-- Witness for C2: the already-present tuple (1, 2, 500) keeps multiplicity
one after loading positions 400, 500, 600. -/
theorem variant_async_prefilter_exact_witness :
    ((1 : Int), (2 : Int), (500 : Int)) ∈ [((1 : Int), (2 : Int), (500 : Int))] ∧
    (insert_variants_from_file_async [(1, 2, 500)] 1 2 [400, 500, 600]).2.count
      (1, 2, 500) = [((1 : Int), (2 : Int), (500 : Int))].count (1, 2, 500) :=
  ⟨by decide,
   ((variant_async_prefilter_exact.1 [(1, 2, 500)] 1 2 [400, 500, 600]).2.1
     (1, 2, 500) (by decide))⟩

/-! ## String helpers for the validator models

  Core `String.toInt?`/`String.startsWith` do not reduce in the kernel, so
  the models use character-list implementations of the same operations. -/

/-- Boolean prefix test on character lists. -/
def isPrefixOfB : List Char → List Char → Bool
  | [], _ => true
  | _ :: _, [] => false
  | a :: as, b :: bs => decide (a = b) && isPrefixOfB as bs

/-- Boolean substring test: does `sub` occur inside `hay`?  This models the
    Python `in` operator on strings. -/
def hasSubstr (sub : List Char) : List Char → Bool
  | [] => isPrefixOfB sub []
  | c :: rest => isPrefixOfB sub (c :: rest) || hasSubstr sub rest

/-- Substring test on strings: `strContains hay sub` models `sub in hay`. -/
def strContains (hay sub : String) : Bool := hasSubstr sub.data hay.data

/-- Prefix test on strings; models `re.match(pattern, col)` for a literal
    alternative of the pattern. -/
def strStarts (s p : String) : Bool := isPrefixOfB p.data s.data

/-- Value of a list of decimal digits. -/
def digitsToNat (cs : List Char) : Nat :=
  cs.foldl (fun acc c => acc * 10 + (c.toNat - 48)) 0

/-- Model of Python `int(s)` on a cell: an optional minus sign followed by at
    least one decimal digit. -/
def strToInt (s : String) : Option Int :=
  match s.data with
  | [] => none
  | '-' :: rest =>
    if rest = [] then none
    else if rest.all Char.isDigit then some (-(digitsToNat rest : Int))
    else none
  | cs => if cs.all Char.isDigit then some ((digitsToNat cs : Int)) else none

/-- Model of `CanConvertValidation(int)`: the cell parses as an integer. -/
def canInt (s : String) : Bool := (strToInt s).isSome

/-- Model of `CanConvertValidation(float)`: an optional minus sign followed
    by digits with at most one decimal point, or a spelling of NaN. -/
def canFloat (s : String) : Bool :=
  let cs := match s.data with
    | '-' :: rest => rest
    | cs => cs
  (cs.any Char.isDigit && cs.all (fun c => c.isDigit || decide (c = '.')) &&
    decide (cs.count '.' ≤ 1)) || decide (sqlLower s = "nan")

/-- Projection of a parsed tabular file onto one column (missing cells read
    as the empty string). -/
def colVals (rows : List (List String)) (i : Nat) : List String :=
  rows.map (fun r => r.getD i "")

/-- Number of columns of a parsed tabular file (taken from its first row, as
    pandas infers it). -/
def ncols (rows : List (List String)) : Nat := (rows.headD []).length

/-- Boolean distinctness check, modelling `IsDistinctValidation`. -/
def distinctB {α : Type} [DecidableEq α] (xs : List α) : Bool :=
  decide xs.Nodup

/-! ## Filesystem and arguments model -/

/-- Abstract filesystem: which paths exist, and the parsed tabular content of
    each file (rows of cells, delimiter handling below the model). -/
structure FS where
  isfile : String → Bool
  rows : String → List (List String)

/-- The user-supplied arguments namespace as consumed by the validators:
    working directory, requested validation steps, and the genotype-skip
    flag (`args.skip_genotype_validation is True`). -/
structure RunArgs where
  cwd : String
  validate : List String
  skip_genotype_validation : Bool
deriving DecidableEq

/-- Errors of the validation phase (Python exception classes). -/
inductive VError
  | fileNotFound (path : String)
  | missingKeys (keys : List String)
  | emptyKeys (keys : List String)
  | formatError (path : String)
  | schemaError (path : String)
deriving DecidableEq

/-! ## Per-kind schema validators (validate.py lines 35-341)

  Each validator reads a parsed tabular file from the filesystem model and
  either succeeds or fails with the first aggregated error, as the source
  raises the first entry of the collected error list.  Numeric-convertibility
  and distinctness checks model the declared pandas_schema columns. -/

/-- Embedding of `validate_line` (validate.py lines 87-114): the file must
    have exactly one column, whose values are all distinct. -/
def validate_line (args : RunArgs) (fs : FS) (fp : String) :
    Except VError Unit :=
  let df := fs.rows fp
  if ncols df ≠ 1 then .error (.formatError fp)
  else if distinctB (colVals df 0) then .ok ()
  else .error (.schemaError fp)

/-- Embedding of `validate_variant` (validate.py lines 164-196): exactly two
    columns (a distinct error from schema violations); `chr` must be
    integer-convertible, `pos` integer-convertible and distinct. -/
def validate_variant (args : RunArgs) (fs : FS) (fp : String) :
    Except VError Unit :=
  let df := fs.rows fp
  if ncols df ≠ 2 then .error (.formatError fp)
  else if (colVals df 0).all canInt &&
          ((colVals df 1).all canInt && distinctB (colVals df 1)) then .ok ()
  else .error (.schemaError fp)

/-- Allowed allele call of a genotype cell: integer-convertible and in
    {-1, 0, 1, 2}, as declared by the schema columns of `validate_genotype`
    (`CanConvertValidation(int) & CustomSeriesValidation(... in [-1, 0, 1,
    2, ...])`). -/
def allele_ok (s : String) : Bool :=
  match strToInt s with
  | some v =>
    decide (v = -1) || decide (v = 0) || decide (v = 1) || decide (v = 2)
  | none => false

/-- Embedding of `validate_genotype` (validate.py lines 117-161): skipped
    outright when `args.skip_genotype_validation is True`; otherwise the
    `.pos` counterpart file must exist, the first column (row index) must be
    integer-convertible and distinct, and each of the `nPositions` remaining
    columns must hold allowed allele calls. -/
def validate_genotype (args : RunArgs) (fs : FS) (fp : String) :
    Except VError Unit :=
  if args.skip_genotype_validation then .ok ()
  else
    let posPath := fp ++ ".pos"
    if !(fs.isfile posPath) then .error (.fileNotFound posPath)
    else
      let nPositions := (fs.rows posPath).length
      let df := fs.rows fp
      if ((colVals df 0).all canInt && distinctB (colVals df 0)) &&
         (List.range nPositions).all
           (fun n => (colVals df (n + 1)).all allele_ok) then .ok ()
      else .error (.schemaError fp)

/-- Embedding of `validate_kinship` (validate.py lines 199-235): first column
    (renamed line_name) distinct, remaining columns float-convertible; the
    first row is the header. -/
def validate_kinship (args : RunArgs) (fs : FS) (fp : String) :
    Except VError Unit :=
  let df := fs.rows fp
  let body := df.tail
  if distinctB (colVals body 0) &&
     (List.range (ncols df - 1)).all
       (fun n => (colVals body (n + 1)).all canFloat) then .ok ()
  else .error (.schemaError fp)

/-- Embedding of `validate_population_structure` (validate.py lines 238-272):
    a column named Pedigree must exist and be distinct, remaining columns
    must be float-convertible. -/
def validate_population_structure (args : RunArgs) (fs : FS) (fp : String) :
    Except VError Unit :=
  let df := fs.rows fp
  let hdr := df.headD []
  let body := df.tail
  if hdr.contains "Pedigree" &&
     distinctB (colVals body (hdr.indexOf "Pedigree")) &&
     (List.range (ncols df - 1)).all
       (fun n => (colVals body (n + 1)).all canFloat) then .ok ()
  else .error (.schemaError fp)

/-- Acceptable first-column header of a phenotype file
    (`re.match("(genotype)|(pedigree)|(line)|(taxa)", col, re.IGNORECASE)`). -/
def phenoFieldOk (c : String) : Bool :=
  ["genotype", "pedigree", "line", "taxa"].any
    (fun af => strStarts (sqlLower c) af)

/-- Embedding of `validate_phenotype` (validate.py lines 35-84): the first
    column name must match the identity-column allow-list (else a distinct
    format error); remaining columns must be float-convertible; the identity
    column is deliberately not distinct-checked. -/
def validate_phenotype (args : RunArgs) (fs : FS) (fp : String) :
    Except VError Unit :=
  let df := fs.rows fp
  let hdr := df.headD []
  let body := df.tail
  if !(phenoFieldOk (hdr.headD "")) then .error (.formatError fp)
  else if (List.range (ncols df - 1)).all
      (fun n => (colVals body (n + 1)).all canFloat) then .ok ()
  else .error (.schemaError fp)

/-- Integer-checked column names of a GWAS run file
    (`re.match("(SNP)|(chr)|(chrom)|(pos)|(nSNPs)", col, re.IGNORECASE)`,
    an unanchored case-insensitive prefix match). -/
def runsIntCol (c : String) : Bool :=
  ["snp", "chr", "chrom", "pos", "nsnps"].any
    (fun p => strStarts (sqlLower c) p)

/-- P-value-checked column names
    (`re.match("((null)?pval(ue)?)", col, re.IGNORECASE)`). -/
def pvalCol (c : String) : Bool :=
  strStarts (sqlLower c) "pval" || strStarts (sqlLower c) "nullpval"

/-- Embedding of `validate_runs` (validate.py lines 275-305): column-name
    driven — integer-check columns whose name prefix-matches the
    chromosome/position/SNP-count patterns, float-check p-value-like names,
    pass all other columns through unchecked. -/
def validate_runs (args : RunArgs) (fs : FS) (fp : String) :
    Except VError Unit :=
  let df := fs.rows fp
  let hdr := df.headD []
  let body := df.tail
  if (List.range (ncols df)).all (fun n =>
      let c := hdr.getD n ""
      (!(runsIntCol c) || (colVals body n).all canInt) &&
      (!(pvalCol c) || (colVals body n).all canFloat)) then .ok ()
  else .error (.schemaError fp)

/-- Integer-checked column names of a GWAS result file: exact
    case-insensitive match against the anchored patterns `^SNP$`, `^chr$`,
    `^chrom$`, `^pos$`, `^nSNPs$`. -/
def resultsIntCol (c : String) : Bool :=
  ["snp", "chr", "chrom", "pos", "nsnps"].any (fun p => decide (sqlLower c = p))

/-- Embedding of `validate_results` (validate.py lines 308-340): like
    `validate_runs` but the integer-checked names are matched exactly. -/
def validate_results (args : RunArgs) (fs : FS) (fp : String) :
    Except VError Unit :=
  let df := fs.rows fp
  let hdr := df.headD []
  let body := df.tail
  if (List.range (ncols df)).all (fun n =>
      let c := hdr.getD n ""
      (!(resultsIntCol c) || (colVals body n).all canInt) &&
      (!(pvalCol c) || (colVals body n).all canFloat)) then .ok ()
  else .error (.schemaError fp)

/-! ## Manifest model (JSON configuration) -/

/-- A JSON manifest value: string, number, boolean, array of filenames, or
    null. -/
inductive JVal
  | str (s : String)
  | num (n : Int)
  | boolean (b : Bool)
  | arr (xs : List String)
  | null
deriving DecidableEq

/-- Python truthiness of a manifest value (`if not conf[rf]`). -/
def JVal.truthy : JVal → Bool
  | .str s => decide (s ≠ "")
  | .num n => decide (n ≠ 0)
  | .boolean b => b
  | .arr xs => !xs.isEmpty
  | .null => false

/-- String content of a manifest value. -/
def JVal.asStr : JVal → String
  | .str s => s
  | _ => ""

/-- Numeric content of a manifest value (`number_of_chromosomes`). -/
def JVal.asNat : JVal → Nat
  | .num n => n.toNat
  | _ => 0

/-- Normalisation `if not isinstance(v, list): v = [v]` applied to a manifest
    value. -/
def JVal.asList : JVal → List String
  | .arr xs => xs
  | v => [v.asStr]

/-- A manifest: an insertion-ordered key-value dictionary, as a Python dict. -/
abbrev Conf := List (String × JVal)

/-- Key membership (`k in conf`). -/
def Conf.containsKey (c : Conf) (k : String) : Bool :=
  c.any (fun e => decide (e.1 = k))

/-- Value lookup (`conf[k]`); the validator only reads keys it has already
    checked for presence. -/
def Conf.get (c : Conf) (k : String) : JVal :=
  match c.find? (fun e => decide (e.1 = k)) with
  | some e => e.2
  | none => .null

/-- Assignment `conf[k] = v`: update in place if the key exists, else append
    (Python dicts preserve insertion order). -/
def Conf.set (c : Conf) (k : String) (v : JVal) : Conf :=
  if c.any (fun e => decide (e.1 = k)) then
    c.map (fun e => if e.1 = k then (k, v) else e)
  else
    c ++ [(k, v)]

/-! ## Configuration validator (validate.py lines 371-658) -/

/-- Keys whose absence is an error (`expected_fields`,
    validate.py lines 381-402). -/
def expected_fields : List String :=
  ["species_shortname", "species_binomial_name", "species_subspecies",
   "species_variety", "population_name", "number_of_chromosomes",
   "genotype_version_assembly_name", "genotype_version_annotation_name",
   "reference_genome_line_name", "gwas_algorithm_name",
   "imputation_method_name", "kinship_algortihm_name",
   "population_structure_algorithm_name", "kinship_filename",
   "population_structure_filename", "gwas_run_filename",
   "gwas_results_filename", "missing_SNP_cutoff_value",
   "missing_line_cutoff_value", "minor_allele_frequency_cutoff_value",
   "phenotype_filename"]

/-- Keys whose declared-but-empty value is an error (`required_fields`,
    validate.py lines 412-431). -/
def required_fields : List String :=
  ["species_shortname", "species_binomial_name", "population_name",
   "number_of_chromosomes", "genotype_version_assembly_name",
   "genotype_version_annotation_name", "reference_genome_line_name",
   "gwas_algorithm_name", "imputation_method_name", "kinship_algortihm_name",
   "population_structure_algorithm_name", "kinship_filename",
   "population_structure_filename", "gwas_run_filename",
   "gwas_results_filename", "missing_SNP_cutoff_value",
   "missing_line_cutoff_value", "minor_allele_frequency_cutoff_value",
   "phenotype_filename"]

/-- Per-chromosome genotype file path, from the template
    `${cwd}/${chr}_${shortname}.012`. -/
def genotype_filepath (cwd shortname : String) (c : Nat) : String :=
  cwd ++ "/chr" ++ toString c ++ "_" ++ shortname ++ ".012"

/-- Per-chromosome variant file path, from the template
    `${cwd}/${chr}_${shortname}.012.pos`. -/
def variant_filepath (cwd shortname : String) (c : Nat) : String :=
  cwd ++ "/chr" ++ toString c ++ "_" ++ shortname ++ ".012.pos"

/-- Default lines file path, from the template
    `${cwd}/${chr}_${shortname}.012.indv` at chr1. -/
def lines_default_filepath (cwd shortname : String) : String :=
  cwd ++ "/chr1_" ++ shortname ++ ".012.indv"

/-- Literal file path under the working directory
    (`${cwd}/${filename}`). -/
def pathUnder (cwd fname : String) : String := cwd ++ "/" ++ fname

/-- Filepath expansion section of `validate_configuration` (validate.py
    lines 443-505): set the chromosome-templated `genotype_filename` and
    `variant_filename` arrays, resolve `lines_filename` (defaulting to the
    chr1 `.012.indv` companion), normalise the phenotype/GWAS-results/GWAS-run
    entries to arrays of cwd-prefixed paths and prefix the kinship and
    population-structure paths. -/
def expand_conf (args : RunArgs) (conf0 : Conf) : Conf :=
  let cwd := args.cwd
  let shortname := (conf0.get "species_shortname").asStr
  let n := (conf0.get "number_of_chromosomes").asNat
  let gpaths := (List.range n).map (fun i => genotype_filepath cwd shortname (i + 1))
  let vpaths := (List.range n).map (fun i => variant_filepath cwd shortname (i + 1))
  let conf1 := (conf0.set "genotype_filename" (.arr gpaths)).set
    "variant_filename" (.arr vpaths)
  let lines_fp :=
    if !(conf1.containsKey "lines_filename") then
      lines_default_filepath cwd shortname
    else pathUnder cwd ((conf1.get "lines_filename").asStr)
  let conf2 := conf1.set "lines_filename" (.str lines_fp)
  let conf3 :=
    if conf2.containsKey "phenotype_filename" then
      conf2.set "phenotype_filename"
        (.arr (((conf2.get "phenotype_filename").asList).map (pathUnder cwd)))
    else conf2
  let conf4 :=
    if conf3.containsKey "population_structure_filename" then
      conf3.set "population_structure_filename"
        (.str (pathUnder cwd ((conf3.get "population_structure_filename").asStr)))
    else conf3
  let conf5 :=
    if conf4.containsKey "gwas_results_filename" then
      conf4.set "gwas_results_filename"
        (.arr (((conf4.get "gwas_results_filename").asList).map (pathUnder cwd)))
    else conf4
  let conf6 :=
    if conf5.containsKey "gwas_run_filename" then
      conf5.set "gwas_run_filename"
        (.arr (((conf5.get "gwas_run_filename").asList).map (pathUnder cwd)))
    else conf5
  if conf6.containsKey "kinship_filename" then
    conf6.set "kinship_filename"
      (.str (pathUnder cwd ((conf6.get "kinship_filename").asStr)))
  else conf6

/-- Locations accumulated by `validate_configuration` (validate.py lines
    444-523) over the expanded manifest: per-chromosome genotype and variant
    entries (when those steps are requested), the lines entry, the kinship
    and population-structure entries, then every array-valued manifest entry
    under its key name as filetype. -/
def gather_locations (args : RunArgs) (conf : Conf) : List (String × String) :=
  let shortname := (conf.get "species_shortname").asStr
  let n := (conf.get "number_of_chromosomes").asNat
  let perChr := ((List.range n).map (fun i =>
    (if "genotype" ∈ args.validate then
      [("genotype", genotype_filepath args.cwd shortname (i + 1))] else []) ++
    (if "variant" ∈ args.validate then
      [("variant", variant_filepath args.cwd shortname (i + 1))] else []))).flatten
  let lineLoc :=
    if "line" ∈ args.validate then
      [("line", (conf.get "lines_filename").asStr)] else []
  let kinLoc :=
    if "kinship" ∈ args.validate then
      [("kinship", (conf.get "kinship_filename").asStr)] else []
  let popLoc :=
    if "population" ∈ args.validate then
      [("population_structure",
        (conf.get "population_structure_filename").asStr)] else []
  let dictLoc := (conf.map (fun e =>
    match e.2 with
    | .arr xs => xs.map (fun f => (e.1, f))
    | v =>
      if e.1 = "phenotype_filename" ∨ e.1 = "gwas_run_filename" ∨
         e.1 = "gwas_results_filename" ∨ e.1 = "line" then
        [(e.1, v.asStr)]
      else [])).flatten
  perChr ++ lineLoc ++ kinLoc ++ popLoc ++ dictLoc

/-- Filtering of the gathered locations down to the requested validation
    steps (validate.py lines 525-531): a location is kept once per requested
    step whose name occurs as a substring of the location's filetype. -/
def selected_locations (args : RunArgs) (conf : Conf) :
    List (String × String) :=
  ((gather_locations args conf).map (fun l =>
    (args.validate.filter (fun step => strContains l.1 step)).map
      (fun _ => l))).flatten

/-- Content-validation dispatch for one location (validate.py lines
    633-653): the if/elif chain pairing filetypes with validators, re-checked
    against the requested steps; `none` models the final else branch, which
    only logs. -/
def validate_contents_one (args : RunArgs) (fs : FS) (ft fp : String) :
    Option (Except VError Unit) :=
  if ft = "line" ∧ "line" ∈ args.validate then
    some (validate_line args fs fp)
  else if ft = "variant" ∧ "variant" ∈ args.validate then
    some (validate_variant args fs fp)
  else if ft = "genotype" ∧ "genotype" ∈ args.validate then
    some (validate_genotype args fs fp)
  else if ft = "kinship" ∧ "kinship" ∈ args.validate then
    some (validate_kinship args fs fp)
  else if ft = "population_structure" ∧ "population" ∈ args.validate then
    some (validate_population_structure args fs fp)
  else if ft = "phenotype_filename" ∧ "phenotype" ∈ args.validate then
    some (validate_phenotype args fs fp)
  else if ft = "gwas_run_filename" ∧ "runs" ∈ args.validate then
    some (validate_runs args fs fp)
  else if ft = "gwas_results_filename" ∧ "result" ∈ args.validate then
    some (validate_results args fs fp)
  else none

/-- Content-validation loop over the retained locations: the first raised
    validator error aborts the loop; the returned list records which
    validator invocations ran (filetype, path). -/
def run_content_validators (args : RunArgs) (fs : FS) :
    List (String × String) → List (String × String) × Except VError Unit
  | [] => ([], .ok ())
  | l :: rest =>
    match validate_contents_one args fs l.1 l.2 with
    | none => run_content_validators args fs rest
    | some (.ok ()) =>
      let pr := run_content_validators args fs rest
      (l :: pr.1, pr.2)
    | some (.error e) => ([l], .error e)

/-- Embedding of `validate_configuration` (validate.py lines 371-658): check
    the manifest file exists; aggregate and report every missing expected
    key in one error, then every empty required value in one error; expand
    filepaths and gather the requested locations; check every retained file
    exists, aborting with the first missing exact path; only then dispatch
    each retained location to its content validator.  Returns the trace of
    validator invocations and either the first error or the expanded
    manifest (whose fields the source copies onto the args namespace). -/
def validate_configuration (args : RunArgs) (fs : FS) (filepath : String)
    (conf0 : Conf) : List (String × String) × Except VError Conf :=
  if !(fs.isfile filepath) then ([], .error (.fileNotFound filepath))
  else if expected_fields.filter (fun k => !(conf0.containsKey k)) ≠ [] then
    ([], .error (.missingKeys
      (expected_fields.filter (fun k => !(conf0.containsKey k)))))
  else if required_fields.filter (fun rf => !((conf0.get rf).truthy)) ≠ [] then
    ([], .error (.emptyKeys
      (required_fields.filter (fun rf => !((conf0.get rf).truthy)))))
  else
    match (selected_locations args (expand_conf args conf0)).find?
        (fun l => !(fs.isfile l.2)) with
    | some l => ([], .error (.fileNotFound l.2))
    | none =>
      match run_content_validators args fs
          (selected_locations args (expand_conf args conf0)) with
      | (tr, .ok _) => (tr, .ok (expand_conf args conf0))
      | (tr, .error e) => (tr, .error e)

/-! ## Pipeline orchestration (pgwasdbi.py lines 13-45, experiment.py lines
    183-205) -/

/-- Chromosomes whose genotype rows `experiment.collect` inserts: one batch
    of `insert_genotypes_from_file` per chromosome in 1..count whose `.012`
    file exists (a missing file is only warned about and skipped). -/
def collect_genotype_chromosomes (args : RunArgs) (conf : Conf) (fs : FS) :
    List Nat :=
  let shortname := (conf.get "species_shortname").asStr
  let n := (conf.get "number_of_chromosomes").asNat
  (List.range n).filterMap (fun i =>
    if fs.isfile (genotype_filepath args.cwd shortname (i + 1)) then
      some (i + 1)
    else none)

/-- Embedding of the orchestration of `pgwasdbi.main`/`run` restricted to the
    genotype path of `experiment.collect`: configuration validation (with
    its content validators) runs first, and only when it succeeds — and the
    run is not a dry run — does the collect phase insert genotype rows.
    Returns the validator trace, the chromosomes whose genotypes were
    inserted, and the error if any. -/
def main_import (args : RunArgs) (fs : FS) (filepath : String) (conf0 : Conf)
    (dryrun : Bool) :
    List (String × String) × List Nat × Option VError :=
  match validate_configuration args fs filepath conf0 with
  | (tr, .error e) => (tr, [], some e)
  | (tr, .ok conf) =>
    if dryrun then (tr, [], none)
    else (tr, collect_genotype_chromosomes args conf fs, none)

/-! ## Sample fixtures for concrete witnesses -/

/-- A complete, nonempty manifest with one chromosome and shortname x. -/
def sample_conf : Conf :=
  [("species_shortname", .str "x"),
   ("species_binomial_name", .str "Zea mays"),
   ("species_subspecies", .str "mays"),
   ("species_variety", .str "v"),
   ("population_name", .str "pop"),
   ("number_of_chromosomes", .num 1),
   ("genotype_version_assembly_name", .str "a"),
   ("genotype_version_annotation_name", .str "b"),
   ("reference_genome_line_name", .str "ref"),
   ("gwas_algorithm_name", .str "MLMM"),
   ("imputation_method_name", .str "impute"),
   ("kinship_algortihm_name", .str "loiselle"),
   ("population_structure_algorithm_name", .str "Eigenstrat"),
   ("kinship_filename", .str "kin.csv"),
   ("population_structure_filename", .str "ps.csv"),
   ("gwas_run_filename", .str "runs.csv"),
   ("gwas_results_filename", .str "results.csv"),
   ("missing_SNP_cutoff_value", .num 1),
   ("missing_line_cutoff_value", .num 1),
   ("minor_allele_frequency_cutoff_value", .num 1),
   ("phenotype_filename", .str "ph.csv")]

/-- `sample_conf` with three required keys removed. -/
def missing3_conf : Conf :=
  sample_conf.filter (fun e =>
    !(decide (e.1 = "species_shortname") ||
      decide (e.1 = "population_name") ||
      decide (e.1 = "kinship_filename")))

/-- Arguments requesting only the genotype validation step. -/
def sample_args : RunArgs := ⟨"/d", ["genotype"], false⟩

/-- Filesystem on which every path exists and every file is empty. -/
def sample_fs_true : FS := ⟨fun _ => true, fun _ => []⟩

/-- Filesystem holding only the configuration file. -/
def sample_fs_cfgonly : FS :=
  ⟨fun p => decide (p = "/d/conf.json"), fun _ => []⟩

/-! ## Claim C5 -/

/-- C5: for every manifest missing one or more required keys, configuration
validation fails with exactly one error whose payload names every missing
key; and when no key is missing, declared-but-empty required values fail
with one error naming every empty key. -/
theorem config_errors_aggregated (args : RunArgs) (fs : FS)
    (filepath : String) (conf : Conf)
    (hfile : fs.isfile filepath = true) :
    (expected_fields.filter (fun k => !(conf.containsKey k)) ≠ [] →
      validate_configuration args fs filepath conf =
        ([], .error (.missingKeys
          (expected_fields.filter (fun k => !(conf.containsKey k)))))) ∧
    (expected_fields.filter (fun k => !(conf.containsKey k)) = [] →
      required_fields.filter (fun rf => !((conf.get rf).truthy)) ≠ [] →
      validate_configuration args fs filepath conf =
        ([], .error (.emptyKeys
          (required_fields.filter (fun rf => !((conf.get rf).truthy)))))) := by
  constructor
  · intro hmiss
    simp [validate_configuration, hfile, hmiss]
  · intro hmiss hempty
    simp [validate_configuration, hfile, hmiss, hempty]

/-- Witness for C5: a manifest missing exactly three required keys fails
with the single error naming all three. -/
theorem config_errors_aggregated_witness :
    expected_fields.filter (fun k => !(missing3_conf.containsKey k)) =
      ["species_shortname", "population_name", "kinship_filename"] ∧
    validate_configuration sample_args sample_fs_true "/d/conf.json"
        missing3_conf =
      ([], .error (.missingKeys
        ["species_shortname", "population_name", "kinship_filename"])) := by
  have h := (config_errors_aggregated sample_args sample_fs_true "/d/conf.json"
    missing3_conf (by decide)).1 (by decide)
  exact ⟨by decide, by rw [h]; decide⟩

/-! ## Claim C6 -/

/-- C6: during configuration validation the existence check of every
selected file precedes all content validation: when some selected file is
missing, the validator fails with a file-not-found error naming the exact
path of the first missing file, and the trace of per-kind validator
invocations is empty — no schema validator ran on any file. -/
theorem config_existence_before_content (args : RunArgs) (fs : FS)
    (filepath : String) (conf : Conf) (l : String × String)
    (hfile : fs.isfile filepath = true)
    (hkeys : expected_fields.filter (fun k => !(conf.containsKey k)) = [])
    (hreq : required_fields.filter (fun rf => !((conf.get rf).truthy)) = [])
    (hfind : (selected_locations args (expand_conf args conf)).find?
      (fun loc => !(fs.isfile loc.2)) = some l) :
    validate_configuration args fs filepath conf =
      ([], .error (.fileNotFound l.2)) := by
  simp [validate_configuration, hfile, hkeys, hreq, hfind]

/-- Witness for C6: with only the configuration file on disk, the genotype
step's first expanded file is reported missing by its exact path and no
content validator runs. -/
theorem config_existence_before_content_witness :
    (selected_locations sample_args (expand_conf sample_args sample_conf)).find?
      (fun loc => !(sample_fs_cfgonly.isfile loc.2)) =
        some ("genotype", "/d/chr1_x.012") ∧
    validate_configuration sample_args sample_fs_cfgonly "/d/conf.json"
      sample_conf = ([], .error (.fileNotFound "/d/chr1_x.012")) :=
  ⟨by decide,
   config_existence_before_content sample_args sample_fs_cfgonly "/d/conf.json"
     sample_conf ("genotype", "/d/chr1_x.012") (by decide) (by decide)
     (by decide) (by decide)⟩

/-! ## Claim C9 -/

/-- Known validation step names (`validation_options`, cli.py lines
    126-136). -/
def validation_options : List String :=
  ["config", "line", "genotype", "variant", "kinship", "population",
   "phenotype", "runs", "result"]

/-- Embedding of the validation-step handling of `parse_options` (cli.py
    lines 126-161): the warn-and-drop filtering of unknown step names (cli.py
    lines 137-158) exists only as commented-out code, so the live function
    passes the user-provided selection through unchanged. -/
def parse_options_validate (validate : List String) : List String := validate

/-- Modelled from the spec: the step filtering described by the spec (and by
    the commented-out cli.py lines 153-158) — drop every step name outside
    `validation_options`. -/
def spec_validate_filter (validate : List String) : List String :=
  validate.filter (fun v => decide (v ∈ validation_options))

/-- C9 counterexample: the claim that an unknown step name is warned about
and dropped from the selection is false for the live code: `parse_options`
passes the selection through unchanged, so the unknown name bogus is kept,
whereas the claimed filtering would yield just the known names. -/
theorem parse_options_unknown_kept :
    parse_options_validate ["bogus", "line"] = ["bogus", "line"] ∧
    ("bogus" ∈ validation_options) = False ∧
    parse_options_validate ["bogus", "line"] ≠
      spec_validate_filter ["bogus", "line"] := by
  refine ⟨rfl, by decide, by decide⟩

/-- C9 (amended): the live CLI neither warns about nor drops unknown
validation step names — the selection is passed through unchanged (the
filtering survives only in comments); an unknown step name is still never
fatal: it matches no file kind, so configuration validation retains no files
for it, runs no content validator, and succeeds. -/
theorem parse_options_passthrough_not_fatal :
    (∀ sel : List String, parse_options_validate sel = sel) ∧
    validate_configuration ⟨"/d", ["bogus"], false⟩ sample_fs_true
        "/d/conf.json" sample_conf =
      ([], .ok (expand_conf ⟨"/d", ["bogus"], false⟩ sample_conf)) := by
  exact ⟨fun sel => rfl, by decide⟩

/-! ## Claim C4 -/

/-- When the content-validation loop succeeds, no retained location's
    dispatched validator raised an error. -/
lemma run_content_validators_ok_all (args : RunArgs) (fs : FS)
    (ls : List (String × String))
    (h : (run_content_validators args fs ls).2 = .ok ()) :
    ∀ l ∈ ls, ∀ e, validate_contents_one args fs l.1 l.2 ≠ some (.error e) := by
  induction ls with
  | nil => intro l hl; cases hl
  | cons a rest ih =>
    intro l hl e hcv
    cases hv : validate_contents_one args fs a.1 a.2 with
    | none =>
      simp only [run_content_validators, hv] at h
      rcases List.mem_cons.mp hl with rfl | hl2
      · rw [hv] at hcv; cases hcv
      · exact ih h l hl2 e hcv
    | some r =>
      cases r with
      | ok u =>
        simp only [run_content_validators, hv] at h
        rcases List.mem_cons.mp hl with rfl | hl2
        · rw [hv] at hcv
          cases hcv
        · exact ih h l hl2 e hcv
      | error e2 =>
        simp only [run_content_validators, hv] at h
        cases h

/-- When configuration validation succeeds, the content-validation loop over
    the retained locations succeeded. -/
lemma validate_configuration_ok_validators (args : RunArgs) (fs : FS)
    (filepath : String) (conf : Conf) (tr : List (String × String))
    (c2 : Conf)
    (h : validate_configuration args fs filepath conf = (tr, .ok c2)) :
    (run_content_validators args fs
      (selected_locations args (expand_conf args conf))).2 = .ok () := by
  unfold validate_configuration at h
  split at h
  · exact Except.noConfusion (congrArg Prod.snd h)
  · split at h
    · exact Except.noConfusion (congrArg Prod.snd h)
    · split at h
      · exact Except.noConfusion (congrArg Prod.snd h)
      · split at h
        · exact Except.noConfusion (congrArg Prod.snd h)
        · split at h
          next tr2 u heq =>
            rw [heq]
          next tr2 e heq =>
            exact Except.noConfusion (congrArg Prod.snd h)

/-- C4: a genotype (.012) file containing an allele-call value outside
{-1, 0, 1, 2} fails `validate_genotype` (when the skip flag is off and the
`.pos` counterpart exists); consequently, whenever such a file is among the
retained validation locations, the whole import pipeline stops with an error
and inserts no genotype row for any chromosome; and validation is skipped
exactly when `skip_genotype_validation` is `True`. -/
theorem genotype_bad_value_fails_before_insert
    (args : RunArgs) (fs : FS) (filepath : String) (conf : Conf)
    (dryrun : Bool) (gp : String)
    (hskip : args.skip_genotype_validation = false)
    (hsel : "genotype" ∈ args.validate)
    (hloc : ("genotype", gp) ∈ selected_locations args (expand_conf args conf))
    (hpos : fs.isfile (gp ++ ".pos") = true)
    (hbad : ∃ j, j < (fs.rows (gp ++ ".pos")).length ∧
      (colVals (fs.rows gp) (j + 1)).all allele_ok = false) :
    validate_genotype args fs gp = .error (.schemaError gp) ∧
    (main_import args fs filepath conf dryrun).2.1 = [] ∧
    (main_import args fs filepath conf dryrun).2.2 ≠ none ∧
    (∀ (a2 : RunArgs) (fs2 : FS) (fp2 : String),
      a2.skip_genotype_validation = true →
      validate_genotype a2 fs2 fp2 = .ok ()) := by
  obtain ⟨j, hj, hcol⟩ := hbad
  have hall : (List.range ((fs.rows (gp ++ ".pos")).length)).all
      (fun n => (colVals (fs.rows gp) (n + 1)).all allele_ok) = false := by
    rw [List.all_eq_false]
    exact ⟨j, List.mem_range.mpr hj, by simp [hcol]⟩
  have hvg : validate_genotype args fs gp = .error (.schemaError gp) := by
    simp only [validate_genotype, hskip, hpos]
    simp [hall]
  have hdisp : validate_contents_one args fs "genotype" gp =
      some (.error (.schemaError gp)) := by
    simp [validate_contents_one, hsel, hvg]
  have hnotok : ∀ (tr : List (String × String)) (c2 : Conf),
      validate_configuration args fs filepath conf ≠ (tr, .ok c2) := by
    intro tr c2 heq
    have hok := validate_configuration_ok_validators args fs filepath conf
      tr c2 heq
    exact run_content_validators_ok_all args fs _ hok ("genotype", gp) hloc
      (.schemaError gp) hdisp
  have hmain : (main_import args fs filepath conf dryrun).2.1 = [] ∧
      (main_import args fs filepath conf dryrun).2.2 ≠ none := by
    cases hv : validate_configuration args fs filepath conf with
    | mk tr res =>
      cases res with
      | error e => simp [main_import, hv]
      | ok c2 => exact absurd hv (hnotok tr c2)
  exact ⟨hvg, hmain.1, hmain.2,
    fun a2 fs2 fp2 h2 => by simp [validate_genotype, h2]⟩

/-- Witness for C4: a one-chromosome dataset whose genotype file holds the
out-of-range allele call 3; the pipeline errors and inserts nothing. -/
theorem genotype_bad_value_fails_before_insert_witness :
    ("genotype", "/d/chr1_x.012") ∈
      selected_locations sample_args (expand_conf sample_args sample_conf) ∧
    validate_genotype sample_args
      ⟨fun _ => true,
       fun p => if p = "/d/chr1_x.012" then [["0", "3"]]
                else if p = "/d/chr1_x.012.pos" then [["1", "400"]]
                else []⟩ "/d/chr1_x.012" = .error (.schemaError "/d/chr1_x.012") ∧
    (main_import sample_args
      ⟨fun _ => true,
       fun p => if p = "/d/chr1_x.012" then [["0", "3"]]
                else if p = "/d/chr1_x.012.pos" then [["1", "400"]]
                else []⟩ "/d/conf.json" sample_conf false).2.1 = [] ∧
    (main_import sample_args
      ⟨fun _ => true,
       fun p => if p = "/d/chr1_x.012" then [["0", "3"]]
                else if p = "/d/chr1_x.012.pos" then [["1", "400"]]
                else []⟩ "/d/conf.json" sample_conf false).2.2 ≠ none := by
  have h := genotype_bad_value_fails_before_insert sample_args
    ⟨fun _ => true,
     fun p => if p = "/d/chr1_x.012" then [["0", "3"]]
              else if p = "/d/chr1_x.012.pos" then [["1", "400"]]
              else []⟩ "/d/conf.json" sample_conf false "/d/chr1_x.012"
    (by decide) (by decide) (by decide) (by decide)
    ⟨0, by decide, by decide⟩
  exact ⟨by decide, h.1, h.2.1, h.2.2.1⟩
